import Mathlib

/-!
Shallow embedding of `src/javascript.js`: a minimal 2D rigid-body physics
simulation (gravity, floor/wall collisions, radial click impulses) over a
sequence of rectangular bodies.

The integrator, activation service and scheduler are embedded over `ℚ`
(the JS numbers there only use field operations and comparisons, so the
rational embedding is exact and executable).  The impulse dispatcher uses
`Math.sqrt`, so it is embedded over `ℝ` with `Real.sqrt`.
-/

/-- A physics body (source lines 74-83): top-left position `(x, y)`,
velocity `(vx, vy)`, fixed size `(w, h)`, and the opaque back-reference
`el` to the host entity (modelled as a numeric identity). -/
structure Body (α : Type) where
  el : Nat
  x : α
  y : α
  vx : α
  vy : α
  w : α
  h : α
deriving DecidableEq

/-- `const GRAVITY = 2000` (source line 13), px/s². -/
def GRAVITY : ℚ := 2000

/-- `const BOUNCE = 0.6` (source line 14), energy retained on bounce. -/
def BOUNCE : ℚ := 0.6

/-- Integration phase of `step` (source lines 26-28):
`b.vy += GRAVITY * dt; b.x += b.vx * dt; b.y += b.vy * dt` — the position
update for `y` uses the already-updated `vy`. -/
def integrate (dt : ℚ) (b : Body ℚ) : Body ℚ :=
  { b with
    vy := b.vy + GRAVITY * dt
    x := b.x + b.vx * dt
    y := b.y + (b.vy + GRAVITY * dt) * dt }

/-- Floor-collision phase of `step` (source lines 31-37): if the body
crosses the page bottom, clamp `y`, reflect `vy` with `BOUNCE`, apply
ground friction `vx *= 0.8`, and snap `vy` to `0` when `|vy| < 30`. -/
def floorResolve (pageHeight : ℚ) (b : Body ℚ) : Body ℚ :=
  if b.y + b.h > pageHeight then
    { b with
      y := pageHeight - b.h
      vx := b.vx * 0.8
      vy := if |(-b.vy * BOUNCE)| < 30 then 0 else -b.vy * BOUNCE }
  else b

/-- Wall-collision phase of `step` (source lines 40-41): the left-wall
check runs first, then the right-wall check runs on the possibly already
clamped state; neither is re-evaluated afterwards. -/
def wallResolve (pageWidth : ℚ) (b : Body ℚ) : Body ℚ :=
  let b1 := if b.x < 0 then { b with x := 0, vx := -b.vx * BOUNCE } else b
  if b1.x + b1.w > pageWidth then
    { b1 with x := pageWidth - b1.w, vx := -b1.vx * BOUNCE }
  else b1

/-- One full per-body step (source lines 24-41): integrate, then floor
collision, then walls, in this exact order. -/
def stepBody (dt pageWidth pageHeight : ℚ) (b : Body ℚ) : Body ℚ :=
  wallResolve pageWidth (floorResolve pageHeight (integrate dt b))

/-- Write-back to the renderer sink (source lines 44-45):
`style.left = Math.round(b.x)`, `style.top = Math.round(b.y)`.
JS `Math.round` is `⌊x + 1/2⌋`, which is Mathlib's `round`. -/
def renderPos (b : Body ℚ) : ℤ × ℤ :=
  (round b.x, round b.y)

/-- One frame over the whole body sequence (source line 24):
`bodies.forEach(...)` applies the per-body step to every body. -/
def stepAll (dt pageWidth pageHeight : ℚ) (bs : List (Body ℚ)) : List (Body ℚ) :=
  bs.map (stepBody dt pageWidth pageHeight)

/-- Delta-time computation of the scheduler (source line 18):
`dt = Math.min(0.05, (now - last) / 1000)` — an upper cap only. -/
def computeDt (now last : ℚ) : ℚ :=
  min 0.05 ((now - last) / 1000)

/-- An external entity as seen through the geometry source: tag name,
computed-style fields consulted by `activateElement` (source lines 57-58),
and the bounding rectangle (source line 60).  `id` is the stable identity
that the `WeakSet` membership test keys on. -/
structure Entity where
  id : Nat
  tagName : String
  display : String
  visibility : String
  opacity : String
  left : ℚ
  top : ℚ
  width : ℚ
  height : ℚ
deriving DecidableEq

/-- `excludeTags` (source line 8). -/
def excludeTags : List String :=
  ["HTML", "HEAD", "META", "TITLE", "LINK", "SCRIPT", "STYLE", "BODY"]

/-- Process-wide mutable state (source lines 9-10): the ordered body
sequence and the set of already-activated entity identities. -/
structure SimState (α : Type) where
  bodies : List (Body α)
  activeSet : List Nat
deriving DecidableEq

/-- `activateElement` (source lines 54-87).  Checks run in source order:
null entity or already activated, excluded tag, not rendered
(`display: none`, `visibility: hidden`, `opacity: '0'`), zero-size rect;
each rejection returns `null` with no state change.  On success the new
body snapshots page coordinates (rect plus scroll), gets velocity
`(0, 30)`, is appended to the sequence, and its entity id is marked
active. -/
def activateElement (scrollX scrollY : ℚ) (el? : Option Entity)
    (s : SimState ℚ) : Option (Body ℚ) × SimState ℚ :=
  match el? with
  | none => (none, s)
  | some e =>
    if e.id ∈ s.activeSet then (none, s)
    else if e.tagName ∈ excludeTags then (none, s)
    else if e.display = "none" ∨ e.visibility = "hidden" ∨ e.opacity = "0" then
      (none, s)
    else if e.width = 0 ∨ e.height = 0 then (none, s)
    else
      let b : Body ℚ :=
        { el := e.id
          x := e.left + scrollX
          y := e.top + scrollY
          vx := 0
          vy := 30
          w := e.width
          h := e.height }
      (some b, { bodies := s.bodies ++ [b], activeSet := s.activeSet ++ [e.id] })

/-- Distance used as divisor in the impulse pass (source line 103):
`Math.sqrt(dx*dx + dy*dy) || 1` — the JS `|| 1` substitutes `1` exactly
when the square root is `0` (the only falsy value it can take), not
whenever it is below `1`. -/
noncomputable def impulseDist (ox oy : ℝ) (b : Body ℝ) : ℝ :=
  if Real.sqrt ((b.x + b.w / 2 - ox) * (b.x + b.w / 2 - ox) +
      (b.y + b.h / 2 - oy) * (b.y + b.h / 2 - oy)) = 0 then 1
  else Real.sqrt ((b.x + b.w / 2 - ox) * (b.x + b.w / 2 - ox) +
      (b.y + b.h / 2 - oy) * (b.y + b.h / 2 - oy))

/-- Impulse magnitude (source line 104):
`force = Math.min(3000, 60000 / (dist + 20))`. -/
noncomputable def impulseForce (ox oy : ℝ) (b : Body ℝ) : ℝ :=
  min 3000 (60000 / (impulseDist ox oy b + 20))

/-- Per-body impulse application (source lines 99-106):
`vx += (dx / dist) * (force / 1000)`, `vy += (dy / dist) * (force / 1000)`,
with `dx = cx - e.clientX`, `dy = cy - e.clientY` measured from the click
origin to the body center `(x + w/2, y + h/2)`. -/
noncomputable def impulseBody (ox oy : ℝ) (b : Body ℝ) : Body ℝ :=
  { b with
    vx := b.vx + (b.x + b.w / 2 - ox) / impulseDist ox oy b *
      (impulseForce ox oy b / 1000)
    vy := b.vy + (b.y + b.h / 2 - oy) / impulseDist ox oy b *
      (impulseForce ox oy b / 1000) }

/-- The impulse pass of the click handler (source lines 98-107):
`bodies.forEach(...)` mutates each body's velocity; the body sequence and
the activation set are not touched. -/
noncomputable def applyRadialImpulse (ox oy : ℝ) (s : SimState ℝ) : SimState ℝ :=
  { s with bodies := s.bodies.map (impulseBody ox oy) }

/-- The body of the spec's concrete gravity scenario: activated at
`(100, 0)`, size `50 × 50`, velocity `(0, 30)`. -/
def demoBody : Body ℚ :=
  { el := 0, x := 100, y := 0, vx := 0, vy := 30, w := 50, h := 50 }

/-- C3: velocity is updated before position (symplectic-Euler order):
`vy` gains `GRAVITY * dt` first, and `y` advances using the updated `vy`;
for a body with `vx = 0` and no floor collision the post-step `vy` is
exactly `vy + GRAVITY * dt`; and in the spec's concrete scenario
(`(100,0)`, size `50×50`, velocity `(0,30)`, `dt = 0.1`, page `800×600`)
the post-step state has `vy = 230`, `y = 23`, and the sink receives
`(100, 23)`. -/
theorem symplectic_euler_order (dt pageWidth pageHeight : ℚ) (b : Body ℚ)
    (hvx : b.vx = 0)
    (hnc : (integrate dt b).y + (integrate dt b).h ≤ pageHeight) :
    (integrate dt b).vy = b.vy + GRAVITY * dt ∧
    (integrate dt b).x = b.x + b.vx * dt ∧
    (integrate dt b).y = b.y + (b.vy + GRAVITY * dt) * dt ∧
    (stepBody dt pageWidth pageHeight b).vy = b.vy + GRAVITY * dt ∧
    (stepBody (1/10) 800 600 demoBody).vy = 230 ∧
    (stepBody (1/10) 800 600 demoBody).y = 23 ∧
    renderPos (stepBody (1/10) 800 600 demoBody) = (100, 23) := by
  refine ⟨rfl, rfl, rfl, ?_, ?_, ?_, ?_⟩
  · have hfloor : floorResolve pageHeight (integrate dt b) = integrate dt b := by
      simp [floorResolve, not_lt.mpr hnc]
    simp only [stepBody, hfloor, wallResolve]
    split <;> split <;> rfl
  · norm_num [stepBody, wallResolve, floorResolve, integrate, demoBody, GRAVITY, BOUNCE]
  · norm_num [stepBody, wallResolve, floorResolve, integrate, demoBody, GRAVITY, BOUNCE]
  · norm_num [stepBody, wallResolve, floorResolve, integrate, demoBody, renderPos,
      GRAVITY, BOUNCE, round_eq]

/-- Witness for `symplectic_euler_order` at the spec's concrete scenario. -/
theorem symplectic_euler_order_witness :
    (stepBody (1/10) 800 600 demoBody).vy = 230 ∧
    renderPos (stepBody (1/10) 800 600 demoBody) = (100, 23) := by
  have h := symplectic_euler_order (1/10) 800 600 demoBody (by norm_num [demoBody])
    (by norm_num [integrate, demoBody, GRAVITY])
  exact ⟨h.2.2.2.2.1, h.2.2.2.2.2.2⟩

/-- The body of the spec's concrete bounce scenario: at `y = 580` with
`h = 50` and `vy = 250` against page height `600`. -/
def bounceBody : Body ℚ :=
  { el := 1, x := 100, y := 580, vx := 10, vy := 250, w := 50, h := 50 }

/-- C2: floor-collision resolution.  For a body whose integrated position
crosses the floor (`y + h > pageHeight`), the step clamps
`y = pageHeight - h`, reflects `vy = -vy * BOUNCE` with `BOUNCE = 0.6`,
multiplies `vx` by `0.8`, and snaps the reflected `vy` to `0` exactly when
its absolute value is below `30`; a body with `y + h ≤ pageHeight` after
integration is left untouched by this branch. -/
theorem floor_collision_resolution (dt pageHeight : ℚ) (b : Body ℚ) :
    BOUNCE = 0.6 ∧
    ((integrate dt b).y + (integrate dt b).h > pageHeight →
      floorResolve pageHeight (integrate dt b) =
        { integrate dt b with
          y := pageHeight - (integrate dt b).h
          vx := (integrate dt b).vx * 0.8
          vy := if |(-(integrate dt b).vy * BOUNCE)| < 30 then 0
                else -(integrate dt b).vy * BOUNCE }) ∧
    ((integrate dt b).y + (integrate dt b).h ≤ pageHeight →
      floorResolve pageHeight (integrate dt b) = integrate dt b) := by
  refine ⟨rfl, fun hgt => ?_, fun hle => ?_⟩
  · simp [floorResolve, hgt]
  · simp [floorResolve, not_lt.mpr hle]

/-- Witness for `floor_collision_resolution` at the spec's concrete bounce
scenario (`dt = 0`, so the integrated body is the body itself): the clamp
gives `y = 550`, the reflection gives `vy = -150` (no rest snap since
`150 ≥ 30`), and `vx` is scaled by `0.8`. -/
theorem floor_collision_resolution_witness :
    (integrate 0 bounceBody).y + (integrate 0 bounceBody).h > 600 ∧
    floorResolve 600 (integrate 0 bounceBody) =
      { integrate 0 bounceBody with
        y := 600 - (integrate 0 bounceBody).h
        vx := (integrate 0 bounceBody).vx * 0.8
        vy := if |(-(integrate 0 bounceBody).vy * BOUNCE)| < 30 then 0
              else -(integrate 0 bounceBody).vy * BOUNCE } := by
  have hgt : (integrate 0 bounceBody).y + (integrate 0 bounceBody).h > 600 := by
    norm_num [integrate, bounceBody, GRAVITY]
  exact ⟨hgt, (floor_collision_resolution 0 600 bounceBody).2.1 hgt⟩

/-- C4: wall resolution runs after integration and floor resolution, in
the fixed order left wall then right wall, without re-evaluation after
clamping: a body entering with `x < 0` is clamped to `x = 0` with
`vx = -vx * BOUNCE`; the right-wall test then runs on the clamped state,
so a body wider than the page that was left-clamped gets reflected a
second time (`vx = -(-vx * BOUNCE) * BOUNCE`) and re-clamped to
`pageWidth - w`; a body inside both walls is untouched. -/
theorem wall_resolution_order (dt pageWidth pageHeight : ℚ) (b : Body ℚ) :
    stepBody dt pageWidth pageHeight b =
      wallResolve pageWidth (floorResolve pageHeight (integrate dt b)) ∧
    (b.x < 0 → b.w ≤ pageWidth →
      wallResolve pageWidth b = { b with x := 0, vx := -b.vx * BOUNCE }) ∧
    (b.x < 0 → pageWidth < b.w →
      wallResolve pageWidth b =
        { b with x := pageWidth - b.w, vx := -(-b.vx * BOUNCE) * BOUNCE }) ∧
    (0 ≤ b.x → b.x + b.w > pageWidth →
      wallResolve pageWidth b =
        { b with x := pageWidth - b.w, vx := -b.vx * BOUNCE }) ∧
    (0 ≤ b.x → b.x + b.w ≤ pageWidth → wallResolve pageWidth b = b) := by
  refine ⟨rfl, fun hx hw => ?_, fun hx hw => ?_, fun hx hw => ?_, fun hx hw => ?_⟩
  · simp [wallResolve, hx, not_lt.mpr hw]
  · simp [wallResolve, hx, hw]
  · simp [wallResolve, not_lt.mpr hx, hw]
  · simp [wallResolve, not_lt.mpr hx, not_lt.mpr hw]

/-- A body wider than the page, used to exercise the double-reflection
path of the wall resolution and to refute the unconditional bounds
invariant. -/
def wideBody : Body ℚ :=
  { el := 2, x := -5, y := 0, vx := 10, vy := 0, w := 900, h := 10 }

/-- Witness for `wall_resolution_order`: a body at `x = -5` with width
`900` against page width `800` is first clamped to `0` with `vx` reflected
to `-6`, then right-clamped to `-100` with `vx` reflected again to `3.6`. -/
theorem wall_resolution_order_witness :
    wallResolve 800 wideBody =
      { wideBody with x := 800 - wideBody.w,
                      vx := -(-wideBody.vx * BOUNCE) * BOUNCE } := by
  exact (wall_resolution_order 0 800 600 wideBody).2.2.1
    (by norm_num [wideBody]) (by norm_num [wideBody])

/-- The wall pass clamps `x` into `[0, pageWidth - w]` and leaves `y`, `h`
unchanged, provided the body is no wider than the page. -/
lemma wall_bounds (pw : ℚ) (c : Body ℚ) (hw : c.w ≤ pw) :
    0 ≤ (wallResolve pw c).x ∧
    (wallResolve pw c).x + (wallResolve pw c).w ≤ pw ∧
    (wallResolve pw c).y = c.y ∧ (wallResolve pw c).h = c.h := by
  simp only [wallResolve]
  split_ifs with h1 h2 h3 <;> simp_all

/-- C1 (amended): for every body that is no wider than the page
(`w ≤ pageWidth`), the bounds invariant holds after every integration
step: `0 ≤ x`, `x + w ≤ pageWidth`, and `y + h ≤ pageHeight`.  The
unconditional claim fails (see `bounds_invariant_fails_for_wide_body`):
for a body wider than the page the right-wall clamp forces `x < 0`. -/
theorem bounds_invariant_after_step (dt pageWidth pageHeight : ℚ)
    (b : Body ℚ) (hw : b.w ≤ pageWidth) :
    0 ≤ (stepBody dt pageWidth pageHeight b).x ∧
    (stepBody dt pageWidth pageHeight b).x +
      (stepBody dt pageWidth pageHeight b).w ≤ pageWidth ∧
    (stepBody dt pageWidth pageHeight b).y +
      (stepBody dt pageWidth pageHeight b).h ≤ pageHeight := by
  have hfw : (floorResolve pageHeight (integrate dt b)).w = b.w := by
    simp only [floorResolve, integrate]; split_ifs <;> rfl
  have hfy : (floorResolve pageHeight (integrate dt b)).y +
      (floorResolve pageHeight (integrate dt b)).h ≤ pageHeight := by
    simp only [floorResolve]
    split_ifs with h1 h2 <;> simp_all
  have hb := wall_bounds pageWidth (floorResolve pageHeight (integrate dt b))
    (hfw ▸ hw)
  exact ⟨hb.1, hb.2.1, by rw [stepBody, hb.2.2.1, hb.2.2.2]; exact hfy⟩

/-- Witness for `bounds_invariant_after_step` at the spec's concrete
gravity scenario. -/
theorem bounds_invariant_after_step_witness :
    0 ≤ (stepBody (1/10) 800 600 demoBody).x ∧
    (stepBody (1/10) 800 600 demoBody).x +
      (stepBody (1/10) 800 600 demoBody).w ≤ 800 ∧
    (stepBody (1/10) 800 600 demoBody).y +
      (stepBody (1/10) 800 600 demoBody).h ≤ 600 :=
  bounds_invariant_after_step (1/10) 800 600 demoBody (by norm_num [demoBody])

/-- C1 counterexample: for `wideBody` (width `900`, page width `800`,
`dt = 0`) the step ends with `x = -100`, violating `0 ≤ x`: the claim's
bounds invariant does not hold for every body and page bounds. -/
theorem bounds_invariant_fails_for_wide_body :
    ¬ (0 ≤ (stepBody 0 800 600 wideBody).x ∧
       (stepBody 0 800 600 wideBody).x +
         (stepBody 0 800 600 wideBody).w ≤ 800 ∧
       (stepBody 0 800 600 wideBody).y +
         (stepBody 0 800 600 wideBody).h ≤ 600) := by
  norm_num [stepBody, wallResolve, floorResolve, integrate, wideBody, GRAVITY, BOUNCE]

/-- C7 (amended): the scheduler computes
`dt = min(0.05, (now - last) / 1000)` — an upper cap only.  Hence
`dt ≤ 0.05` always holds, and `0 ≤ dt` holds whenever `last ≤ now`; the
claimed lower clamp to `0` does not exist in the code, so for `now < last`
the delta-time is negative (see `dt_negative_when_clock_rewinds`). -/
theorem dt_upper_cap (now last : ℚ) :
    computeDt now last ≤ 0.05 ∧ (last ≤ now → 0 ≤ computeDt now last) := by
  constructor
  · exact min_le_left _ _
  · intro h
    refine le_min (by norm_num) ?_
    have : (0 : ℚ) ≤ now - last := by linarith
    positivity

/-- Witness for `dt_upper_cap` at `now = 5`, `last = 3`. -/
theorem dt_upper_cap_witness :
    computeDt 5 3 ≤ 0.05 ∧ 0 ≤ computeDt 5 3 :=
  ⟨(dt_upper_cap 5 3).1, (dt_upper_cap 5 3).2 (by norm_num)⟩

/-- C7 counterexample: at `now = 0`, `last = 1000` the computed delta-time
is `min(0.05, -1) = -1 < 0`, so `dt` is not clamped below by `0` for every
timestamp pair. -/
theorem dt_negative_when_clock_rewinds :
    ¬ (0 ≤ computeDt 0 1000) := by
  norm_num [computeDt]

/-- C8: `activateElement` returns `null` with no state change for a null
entity, an already-activated entity, an excluded tag, a non-rendered
entity (`display: none`, `visibility: hidden`, or opacity string `"0"`),
or a zero-width/zero-height bounding rect.  A second call on the same
entity is always a rejected no-op, so activating a fresh valid entity
twice grows the body sequence by exactly one, not two. -/
theorem activation_rejections_and_idempotence (sx sy : ℚ) (e : Entity)
    (s : SimState ℚ) :
    activateElement sx sy none s = (none, s) ∧
    (e.id ∈ s.activeSet → activateElement sx sy (some e) s = (none, s)) ∧
    (e.tagName ∈ excludeTags → activateElement sx sy (some e) s = (none, s)) ∧
    (e.display = "none" ∨ e.visibility = "hidden" ∨ e.opacity = "0" →
      activateElement sx sy (some e) s = (none, s)) ∧
    (e.width = 0 ∨ e.height = 0 →
      activateElement sx sy (some e) s = (none, s)) ∧
    activateElement sx sy (some e) (activateElement sx sy (some e) s).2 =
      (none, (activateElement sx sy (some e) s).2) ∧
    (e.id ∉ s.activeSet → e.tagName ∉ excludeTags →
      ¬ (e.display = "none" ∨ e.visibility = "hidden" ∨ e.opacity = "0") →
      ¬ (e.width = 0 ∨ e.height = 0) →
      (activateElement sx sy (some e) s).2.bodies.length =
          s.bodies.length + 1 ∧
        (activateElement sx sy (some e)
            (activateElement sx sy (some e) s).2).2.bodies.length =
          s.bodies.length + 1) := by
  refine ⟨rfl, fun h => by simp [activateElement, h],
    fun h => by simp [activateElement, h],
    fun h => by simp [activateElement, h],
    fun h => by simp [activateElement, h], ?_, fun h1 h2 h3 h4 => ?_⟩
  · by_cases h1 : e.id ∈ s.activeSet <;>
      by_cases h2 : e.tagName ∈ excludeTags <;>
      by_cases h3 : e.display = "none" ∨ e.visibility = "hidden" ∨
        e.opacity = "0" <;>
      by_cases h4 : e.width = 0 ∨ e.height = 0 <;>
      simp [activateElement, h1, h2, h3, h4]
  · simp [activateElement, h1, h2, h3, h4]

/-- A fresh, visible, positively sized entity accepted by activation. -/
def divEntity : Entity :=
  { id := 7, tagName := "DIV", display := "block", visibility := "visible",
    opacity := "1", left := 10, top := 20, width := 50, height := 40 }

/-- Witness for `activation_rejections_and_idempotence`: activating
`divEntity` twice from the empty state leaves the body sequence at size
`1`, not `2`. -/
theorem activation_rejections_and_idempotence_witness :
    (activateElement 0 0 (some divEntity) ⟨[], []⟩).2.bodies.length = 0 + 1 ∧
    (activateElement 0 0 (some divEntity)
        (activateElement 0 0 (some divEntity) ⟨[], []⟩).2).2.bodies.length =
      0 + 1 := by
  have h := (activation_rejections_and_idempotence 0 0 divEntity
      ⟨[], []⟩).2.2.2.2.2.2
    (by simp [divEntity]) (by simp [divEntity, excludeTags])
    (by simp [divEntity]) (by norm_num [divEntity])
  simpa using h

/-- The impulse divisor is strictly positive: the square root is
nonnegative, and the `|| 1` substitution replaces the only zero case. -/
lemma impulseDist_pos_aux (ox oy : ℝ) (b : Body ℝ) : 0 < impulseDist ox oy b := by
  unfold impulseDist
  split_ifs with h
  · norm_num
  · exact lt_of_le_of_ne (Real.sqrt_nonneg _) (Ne.symm h)

/-- The impulse magnitude is strictly positive. -/
lemma impulseForce_pos_aux (ox oy : ℝ) (b : Body ℝ) : 0 < impulseForce ox oy b := by
  have hd := impulseDist_pos_aux ox oy b
  unfold impulseForce
  exact lt_min (by norm_num) (div_pos (by norm_num) (by linarith))

/-- C5: the impulse pass uses `force = min(3000, 60000 / (dist + 20))`
and adds `(dx / dist) * (force / 1000)` to `vx` and
`(dy / dist) * (force / 1000)` to `vy`, where `(dx, dy)` is the offset of
the body center `(x + w/2, y + h/2)` from the origin, so the velocity
change points away from the origin: an origin strictly left of a body's
center strictly increases that body's `vx`. -/
theorem impulse_formula_and_direction (ox oy : ℝ) (b : Body ℝ)
    (h : ox < b.x + b.w / 2) :
    impulseForce ox oy b = min 3000 (60000 / (impulseDist ox oy b + 20)) ∧
    (impulseBody ox oy b).vx =
      b.vx + (b.x + b.w / 2 - ox) / impulseDist ox oy b *
        (impulseForce ox oy b / 1000) ∧
    (impulseBody ox oy b).vy =
      b.vy + (b.y + b.h / 2 - oy) / impulseDist ox oy b *
        (impulseForce ox oy b / 1000) ∧
    b.vx < (impulseBody ox oy b).vx := by
  refine ⟨rfl, rfl, rfl, ?_⟩
  have hd := impulseDist_pos_aux ox oy b
  have hf := impulseForce_pos_aux ox oy b
  have hdx : 0 < b.x + b.w / 2 - ox := by linarith
  have hpos : 0 < (b.x + b.w / 2 - ox) / impulseDist ox oy b *
      (impulseForce ox oy b / 1000) :=
    mul_pos (div_pos hdx hd) (div_pos hf (by norm_num))
  show b.vx < b.vx + (b.x + b.w / 2 - ox) / impulseDist ox oy b *
    (impulseForce ox oy b / 1000)
  linarith

/-- A unit body whose center is `(1/2, 1/2)`. -/
def smallBody : Body ℝ :=
  { el := 3, x := 0, y := 0, vx := 0, vy := 0, w := 1, h := 1 }

/-- Witness for `impulse_formula_and_direction`: an origin at `x = 0`,
strictly left of `smallBody`'s center `x`-coordinate `1/2`, strictly
increases its `vx`. -/
theorem impulse_formula_and_direction_witness :
    smallBody.vx < (impulseBody 0 (1/2) smallBody).vx :=
  (impulse_formula_and_direction 0 (1/2) smallBody
    (by norm_num [smallBody])).2.2.2

/-- C6 counterexample: for `smallBody` and origin `(0, 1/2)` the offset
from the origin to the center is `(1/2, 0)`, so the divisor actually used
is `√(1/4) = 1/2 < 1`: the divisor is not floored to at least `1`. -/
theorem impulse_dist_below_one : ¬ (1 ≤ impulseDist 0 (1/2) smallBody) := by
  have harg : (smallBody.x + smallBody.w / 2 - 0) *
        (smallBody.x + smallBody.w / 2 - 0) +
      (smallBody.y + smallBody.h / 2 - 1/2) *
        (smallBody.y + smallBody.h / 2 - 1/2) = (1/2 : ℝ)^2 := by
    norm_num [smallBody]
  have hs : Real.sqrt ((smallBody.x + smallBody.w / 2 - 0) *
        (smallBody.x + smallBody.w / 2 - 0) +
      (smallBody.y + smallBody.h / 2 - 1/2) *
        (smallBody.y + smallBody.h / 2 - 1/2)) = 1/2 := by
    rw [harg, Real.sqrt_sq (by norm_num)]
  unfold impulseDist
  rw [hs]
  norm_num

/-- C6 (amended): the divisor `Math.sqrt(dx*dx + dy*dy) || 1` substitutes
`1` exactly when the square root is `0` (origin at a body's center), so it
is always strictly positive and never zero — the divisions in the impulse
pass are never divisions by zero — but it is not floored to `1` (see
`impulse_dist_below_one`). -/
theorem impulse_dist_never_zero (ox oy : ℝ) (b : Body ℝ) :
    0 < impulseDist ox oy b ∧ impulseDist ox oy b ≠ 0 :=
  ⟨impulseDist_pos_aux ox oy b, (impulseDist_pos_aux ox oy b).ne'⟩

/-- C9: an impulse pass never creates or removes bodies and mutates only
velocities: the body-sequence length, the activation set, and every
body's position, size and source handle are unchanged. -/
theorem impulse_frame_effect (ox oy : ℝ) (s : SimState ℝ) :
    (applyRadialImpulse ox oy s).bodies.length = s.bodies.length ∧
    (applyRadialImpulse ox oy s).activeSet = s.activeSet ∧
    ∀ i : ℕ,
      ((applyRadialImpulse ox oy s).bodies[i]?).map Body.x =
        (s.bodies[i]?).map Body.x ∧
      ((applyRadialImpulse ox oy s).bodies[i]?).map Body.y =
        (s.bodies[i]?).map Body.y ∧
      ((applyRadialImpulse ox oy s).bodies[i]?).map Body.w =
        (s.bodies[i]?).map Body.w ∧
      ((applyRadialImpulse ox oy s).bodies[i]?).map Body.h =
        (s.bodies[i]?).map Body.h ∧
      ((applyRadialImpulse ox oy s).bodies[i]?).map Body.el =
        (s.bodies[i]?).map Body.el := by
  refine ⟨by simp [applyRadialImpulse], rfl, fun i => ?_⟩
  simp only [applyRadialImpulse, List.getElem?_map]
  cases s.bodies[i]? <;> simp [impulseBody]

/-- A `2 × 2` body whose center is `(1, 1)`. -/
def centerBody : Body ℝ :=
  { el := 4, x := 0, y := 0, vx := 0, vy := 0, w := 2, h := 2 }

/-- C10 counterexample: with the origin exactly at `centerBody`'s center
the substituted distance is `1`, so the force is
`min(3000, 60000 / 21) = 60000 / 21 ≈ 2857`, strictly below the cap
`3000`: the force does not evaluate to its capped maximum there. -/
theorem impulse_force_not_capped_at_center :
    impulseForce 1 1 centerBody = 60000 / 21 ∧
    (60000 : ℝ) / 21 ≠ 3000 := by
  have hd : impulseDist 1 1 centerBody = 1 := by
    have harg : (centerBody.x + centerBody.w / 2 - 1) *
          (centerBody.x + centerBody.w / 2 - 1) +
        (centerBody.y + centerBody.h / 2 - 1) *
          (centerBody.y + centerBody.h / 2 - 1) = (0 : ℝ) := by
      norm_num [centerBody]
    unfold impulseDist
    rw [harg, Real.sqrt_zero]
    norm_num
  constructor
  · unfold impulseForce
    rw [hd, min_eq_right (by norm_num)]
    norm_num
  · norm_num

/-- C10 (amended): if the impulse origin coincides exactly with a body's
center then `dx = dy = 0`, the distance substitution yields `dist = 1`,
and both velocity increments are `0`, so the body is left exactly
unchanged (the force there is `60000 / 21`, positive but strictly below
the `3000` cap). -/
theorem impulse_at_center_noop (ox oy : ℝ) (b : Body ℝ)
    (hx : ox = b.x + b.w / 2) (hy : oy = b.y + b.h / 2) :
    impulseDist ox oy b = 1 ∧ impulseBody ox oy b = b := by
  subst hx hy
  have hd : impulseDist (b.x + b.w / 2) (b.y + b.h / 2) b = 1 := by
    unfold impulseDist
    simp
  refine ⟨hd, ?_⟩
  unfold impulseBody
  rw [hd]
  cases b with
  | mk el x y vx vy w h => simp

/-- Witness for `impulse_at_center_noop` at `centerBody` with the origin
at its center `(1, 1)`. -/
theorem impulse_at_center_noop_witness :
    impulseDist 1 1 centerBody = 1 ∧
    impulseBody 1 1 centerBody = centerBody :=
  impulse_at_center_noop 1 1 centerBody (by norm_num [centerBody])
    (by norm_num [centerBody])
